import Mathlib

/-!
Shallow embedding of the authentication-flow orchestration core of
`angular-auth-oidc-client`:

* `CodeFlowCallbackHandlerService` (`codeFlowCallback`, `codeFlowCodeRequest`,
  `handleRefreshRetry`) from
  `src/projects/.../flows/callback-handling/code-flow-callback-handler.service.ts`;
* `ImplicitFlowCallbackService.authenticatedImplicitFlowCallback` and
  `RefreshSessionService` (`forceRefreshSession`, `startRefreshSession`,
  `timeoutRetryStrategy`) from the accompanying source file.

Observables are modelled by explicit result values paired with an effect
trace; external collaborators (URL parsing, storage, transport, the iframe
signal) are inputs to the embedded functions.  JavaScript falsy string checks
(`!state`) are modelled by comparison with the empty string; optional values
by `Option`.
-/

/-- Custom-parameter maps (`{ [key: string]: string | number | boolean }`).
JS object spread `{...a, ...b}` is append; lookups prefer the later binding,
exactly as later spreads override earlier keys. -/
abbrev Params := List (String × String)

/-- Lookup in a `Params` map: the last binding for a key wins, matching
JS object semantics where later assignments/spreads override earlier ones. -/
def lookupParam (ps : Params) (k : String) : Option String :=
  match ps with
  | [] => none
  | (k', v) :: rest =>
    match lookupParam rest k with
    | some v' => some v'
    | none => if k' == k then some v else none

/-- `{...a, ...b}`: object spread merge, right side overriding. -/
def mergeParams (a b : Params) : Params := a ++ b

/-- Raw token-endpoint response (`authResult` after stamping).
`state`/`session_state` are stamped onto the raw response by
`codeFlowCodeRequest`; `id_token`/`access_token` are what the iframe path's
`map` reads back out. -/
structure AuthResult where
  id_token : Option String
  access_token : Option String
  state : Option String
  session_state : Option String
deriving DecidableEq, Inhabited

/-- The `CallbackContext` record threaded through one authorization exchange. -/
structure CallbackContext where
  code : String
  refreshToken : Option String
  state : String
  sessionState : String
  authResult : Option AuthResult
  isRenewProcess : Bool
  jwtKeys : Option String
  validationResult : Option String
  existingIdToken : Option String
deriving DecidableEq, Inhabited

/-- The fields of `OpenIdConfiguration` consumed by the embedded core.
String-typed optional fields use `""` for the JS-falsy absent value.
`isCodeFlowWithRefreshTokens` records the (external) `FlowHelper`
predicate `isCurrentFlowCodeFlowWithRefreshTokens(config)`. -/
structure OpenIdConfiguration where
  configId : String
  authority : String
  authWellknownEndpointUrl : String
  isCodeFlowWithRefreshTokens : Bool
  useRefreshToken : Bool
  refreshTokenRetryInSeconds : Nat
  silentRenewTimeoutInSeconds : Nat
  triggerAuthorizationResultEvent : Bool
  postLoginRoute : String
  unauthorizedRoute : String
  customParamsRefreshTokenRequest : Params
  customParamsCodeRequest : Params
deriving DecidableEq, Inhabited

/-- Observable side effects performed by the embedded services, in order. -/
inductive Effect where
  | logDebug (msg : String)
  | logWarning (msg : String)
  | logError (msg : String)
  | networkPost (endpoint : String)
  | metadataFetch (url : String)
  | setSilentRenewRunning (configId : String)
  | resetSilentRenewRunning (configId : String)
  | stopPeriodicTokenCheck
  | navigate (route : String)
  | storageWrite (key : String) (configId : String) (value : Params)
  | dispatchRefreshTokens (configId : String) (params : Params)
  | dispatchIframe (configId : String) (params : Params)
  | delay (ms : Nat)
deriving DecidableEq, Inhabited

/-- JS `Error` values as thrown/wrapped by the embedded services: either a
fresh `new Error(message)` or `new Error(error)` wrapping an earlier value. -/
inductive JsError where
  | message (msg : String)
  | wrap (inner : JsError)
  | timeoutError
deriving DecidableEq, Inhabited

/-- Whether a transport error is `JsError.timeoutError` — models
`error instanceof TimeoutError`. -/
def isTimeoutError : JsError → Bool
  | JsError.timeoutError => true
  | _ => false

/-! ### Code-Flow Callback Handler -/

/-- `codeFlowCallback(urlToCheck, config)`.  The external
`UrlService.getUrlParameter` is abstracted by the oracle
`getParam : String → String` (returning `""` for an absent parameter, the
JS-falsy case).  Returns the result together with the effect trace. -/
def codeFlowCallback (getParam : String → String) (config : OpenIdConfiguration) :
    Except JsError CallbackContext × List Effect :=
  let code := getParam "code"
  let state := getParam "state"
  let sessionState := getParam "session_state"
  if state == "" then
    (Except.error (JsError.message "no state in url"), [Effect.logDebug "no state in url"])
  else if code == "" then
    (Except.error (JsError.message "no code in url"), [Effect.logDebug "no code in url"])
  else
    (Except.ok
      { code := code
        refreshToken := none
        state := state
        sessionState := sessionState
        authResult := none
        isRenewProcess := false
        jwtKeys := none
        validationResult := none
        existingIdToken := none },
      [Effect.logDebug "running validation for callback"])

/-- Modelled from the spec: `TokenValidationService.validateStateFromHashCallback`
(the service lives outside the given sources) "compares the stored
anti-forgery value against `context.state` using exact equality". -/
def validateStateFromHashCallback (stateFromUrl stateControl : String) : Bool :=
  stateFromUrl == stateControl

/-- Cached well-known metadata as read from storage. -/
structure AuthWellKnownEndpoints where
  tokenEndpoint : Option String
deriving DecidableEq, Inhabited

/-- One transport outcome of `dataService.post`: a token response, or a
failure described by the fields `handleRefreshRetry` inspects
(`error instanceof HttpErrorResponse && error.error instanceof ProgressEvent
&& error.error.type === 'error'`). -/
inductive NetOutcome where
  | success (id_token access_token : Option String)
  | failure (isHttpErrorResponse : Bool) (errorIsProgressEvent : Bool) (progressEventType : String)
deriving DecidableEq, Inhabited

/-- The connectivity test of `handleRefreshRetry`. -/
def isConnectivityLoss : NetOutcome → Bool
  | NetOutcome.success _ _ => false
  | NetOutcome.failure h p t => h && p && (t == "error")

/-- `handleRefreshRetry`'s decision on one error: retry after
`refreshTokenRetryInSeconds * 1000` ms (with a warning logged) when the error
is a connectivity loss, otherwise rethrow the wrapped error. -/
def handleRefreshRetryDecision (config : OpenIdConfiguration) (e : NetOutcome) :
    Sum (Nat × List Effect) JsError :=
  if isConnectivityLoss e then
    Sum.inl (config.refreshTokenRetryInSeconds * 1000,
      [Effect.logWarning ("OidcService code request " ++ config.authority ++ " - no internet connection")])
  else
    Sum.inr (JsError.wrap (JsError.message "transport"))

/-- Environment of `codeFlowCodeRequest`: the stored anti-forgery value, the
cached well-known metadata, and the transport oracle giving the outcome of
the k-th POST attempt. -/
structure CodeRequestEnv where
  authStateControl : String
  storedWellKnown : Option AuthWellKnownEndpoints
  net : Nat → NetOutcome

/-- The retry loop of `codeFlowCodeRequest`'s POST pipeline
(`retryWhen(handleRefreshRetry)` then `catchError`): attempt `k` issues the
POST; a response stamps `state`/`session_state` onto it and resolves; a
connectivity loss waits the configured delay and resubscribes; any other
failure reaches `catchError`, which logs and surfaces
`OidcService code request ${authority}`.  `fuel` bounds the unbounded
rxjs recursion for the embedding; `none` means the fuel ran out before the
loop settled. -/
def codeRequestLoop (config : OpenIdConfiguration) (ctx : CallbackContext)
    (env : CodeRequestEnv) (tokenEndpoint : String) (k : Nat) :
    Nat → Option (Except JsError CallbackContext × List Effect)
  | 0 => none
  | fuel + 1 =>
    match env.net k with
    | NetOutcome.success idt at_ =>
      let stamped : AuthResult :=
        { id_token := idt
          access_token := at_
          state := some ctx.state
          session_state := some ctx.sessionState }
      some (Except.ok { ctx with authResult := some stamped },
        [Effect.networkPost tokenEndpoint])
    | e =>
      match handleRefreshRetryDecision config e with
      | Sum.inl (d, effs) =>
        match codeRequestLoop config ctx env tokenEndpoint (k + 1) fuel with
        | some (res, trace) =>
          some (res, Effect.networkPost tokenEndpoint :: effs ++ [Effect.delay d] ++ trace)
        | none => none
      | Sum.inr _ =>
        let errorMessage := "OidcService code request " ++ config.authority
        some (Except.error (JsError.message errorMessage),
          [Effect.networkPost tokenEndpoint, Effect.logError errorMessage])

/-- `codeFlowCodeRequest(callbackContext, config)`: state check, token-endpoint
check, then the POST pipeline of `codeRequestLoop`. -/
def codeFlowCodeRequest (config : OpenIdConfiguration) (ctx : CallbackContext)
    (env : CodeRequestEnv) (fuel : Nat) :
    Option (Except JsError CallbackContext × List Effect) :=
  let isStateCorrect := validateStateFromHashCallback ctx.state env.authStateControl
  if !isStateCorrect then
    some (Except.error (JsError.message "codeFlowCodeRequest incorrect state"), [])
  else
    match env.storedWellKnown >>= fun w => w.tokenEndpoint with
    | none => some (Except.error (JsError.message "Token Endpoint not defined"), [])
    | some tokenEndpoint => codeRequestLoop config ctx env tokenEndpoint 0 fuel

/-! ### Implicit-Flow Callback Orchestrator -/

/-- Environment of `authenticatedImplicitFlowCallback`: the per-configuration
silent-renew flag as read before delegation, and the outcome of the external
`flowsService.processImplicitFlowCallback`. -/
structure ImplicitEnv where
  isSilentRenewRunning : Bool
  processOutcome : Except JsError CallbackContext
deriving Inhabited

/-- `authenticatedImplicitFlowCallback(config, allConfigs, hash?)`: reads the
renewal flag, delegates, then navigates on success (non-event mode and the
resulting context not a renewal) or, on failure, resets the flag, stops the
periodic token check, navigates when non-event mode and the pre-delegation
flag was false, and rethrows the wrapped error. -/
def authenticatedImplicitFlowCallback (config : OpenIdConfiguration) (env : ImplicitEnv) :
    Except JsError CallbackContext × List Effect :=
  let isRenewProcess := env.isSilentRenewRunning
  match env.processOutcome with
  | Except.ok callbackContext =>
    if !config.triggerAuthorizationResultEvent && !callbackContext.isRenewProcess then
      (Except.ok callbackContext, [Effect.navigate config.postLoginRoute])
    else
      (Except.ok callbackContext, [])
  | Except.error e =>
    let base := [Effect.resetSilentRenewRunning config.configId, Effect.stopPeriodicTokenCheck]
    let nav :=
      if !config.triggerAuthorizationResultEvent && !isRenewProcess then
        [Effect.navigate config.unauthorizedRoute]
      else []
    (Except.error (JsError.wrap e), base ++ nav)

/-! ### Refresh-Session Orchestrator -/

def MAX_RETRY_ATTEMPTS : Nat := 3

/-- `LoginResponse` as built by `forceRefreshSession`. -/
structure LoginResponse where
  idToken : Option String
  accessToken : Option String
  userData : Option String
  isAuthenticated : Bool
  configId : String
deriving DecidableEq, Inhabited

/-- `timeoutRetryStrategy`'s decision on the `index`-th error (0-based, as in
`mergeMap((error, index) => ...)`): retry after `(index + 1) * 1000` ms with
the flag reset, unless the error is not a `TimeoutError` or
`index + 1 > MAX_RETRY_ATTEMPTS`, in which case the wrapped error is thrown. -/
def timeoutRetryStrategy (config : OpenIdConfiguration) (error : JsError) (index : Nat) :
    Sum (Nat × List Effect) JsError :=
  let scalingDuration := 1000
  let currentAttempt := index + 1
  if !isTimeoutError error || currentAttempt > MAX_RETRY_ATTEMPTS then
    Sum.inr (JsError.wrap error)
  else
    Sum.inl (currentAttempt * scalingDuration,
      [Effect.logDebug ("forceRefreshSession timeout. Attempt #" ++ toString currentAttempt),
       Effect.resetSilentRenewRunning config.configId])

/-- The strategy as actually invoked by the pipeline: the source passes
`retryWhen(this.timeoutRetryStrategy.bind(this))`, and `retryWhen` supplies
its notifier with only the errors observable, so the strategy's `config`
parameter is `undefined` at run time (`none` here); its first statement
`const { configId } = config` then throws a `TypeError` before any retry
logic can run.  Only with a `config` argument (`some`) does the strategy body
of `timeoutRetryStrategy` execute. -/
def timeoutRetryStrategyAsWired (configArg : Option OpenIdConfiguration)
    (error : JsError) (index : Nat) :
    Except JsError (Sum (Nat × List Effect) JsError) :=
  match configArg with
  | none =>
    Except.error (JsError.message
      "TypeError: Cannot destructure property configId of undefined")
  | some config => Except.ok (timeoutRetryStrategy config error index)

/-- External behavior of one `startRefreshSession` call: whether the
well-known metadata fetch errors, and whether the dispatched collaborator
(refresh-token exchange or iframe renewal) errors. -/
structure StartEnv where
  metadataError : Option JsError
  dispatchError : Option JsError
deriving Inhabited

/-- Result of `startRefreshSession` (`boolean | CallbackContext | null`):
`nullResult` is the early `of(null)`, `dispatched` the collaborator's value
(abstract). -/
inductive StartResult where
  | nullResult
  | dispatched
deriving DecidableEq, Inhabited

/-- Outcome of one `startRefreshSession` call: value or error, effect trace,
resulting silent-renew flag, and the (relative) time at which the returned
observable settles (`none` when the dispatched collaborator never completes;
early `of(null)` returns settle at time 0). -/
structure StartOutcome where
  result : Except JsError StartResult
  trace : List Effect
  flag : Bool
  doneAt : Option Nat
deriving Inhabited

/-- `startRefreshSession(config, extraCustomParams)` over the current
silent-renew flag: no-op `null` when a renewal is running; logged `null` when
no well-known URL is configured; otherwise metadata fetch, then (only on its
resolution) the flag is set and the flow-appropriate collaborator is
dispatched.  `dispatchDoneAt` is the settle time of a successful dispatch. -/
def startRefreshSession (config : OpenIdConfiguration) (extraCustomParams : Params)
    (env : StartEnv) (flag : Bool) (dispatchDoneAt : Option Nat) : StartOutcome :=
  let checkMsg := "Checking: silentRenewRunning: " ++ toString flag
  if flag then
    { result := Except.ok StartResult.nullResult
      trace := [Effect.logDebug checkMsg]
      flag := flag
      doneAt := some 0 }
  else if config.authWellknownEndpointUrl == "" then
    { result := Except.ok StartResult.nullResult
      trace := [Effect.logDebug checkMsg, Effect.logError "no authWellKnownEndpoint given!"]
      flag := flag
      doneAt := some 0 }
  else
    match env.metadataError with
    | some e =>
      { result := Except.error e
        trace := [Effect.logDebug checkMsg, Effect.metadataFetch config.authWellknownEndpointUrl]
        flag := flag
        doneAt := none }
    | none =>
      let dispatchEffect :=
        if config.isCodeFlowWithRefreshTokens then
          Effect.dispatchRefreshTokens config.configId extraCustomParams
        else
          Effect.dispatchIframe config.configId extraCustomParams
      let base := [Effect.logDebug checkMsg, Effect.metadataFetch config.authWellknownEndpointUrl,
                   Effect.setSilentRenewRunning config.configId, dispatchEffect]
      match env.dispatchError with
      | some e => { result := Except.error e, trace := base, flag := true, doneAt := none }
      | none =>
        { result := Except.ok StartResult.dispatched
          trace := base
          flag := true
          doneAt := dispatchDoneAt }

/-- External behavior of one iframe-path attempt: the `startRefreshSession`
externals, the settle time of its dispatch, and the arrival time / payload of
the next `refreshSessionWithIFrameCompleted$` emission (`none`: never). -/
structure AttemptEnv where
  start : StartEnv
  startDoneAt : Option Nat
  signalAt : Option Nat
  signalCtx : CallbackContext
deriving Inhabited

/-- Outcome of one `forkJoin([...]).pipe(timeout(T))` subscription. -/
inductive AttemptOutcome where
  | completed (ctx : CallbackContext)
  | timedOut
  | errored (e : JsError)
deriving Inhabited

/-- One iframe-path attempt: `forkJoin` of `startRefreshSession` and the
one-shot completion signal, under `timeout(T)`.  The join emits only when
both branches have settled; `timeout` fires if no emission happened strictly
before `T` ms.  A branch error surfaces as the attempt's error. -/
def runIframeAttempt (config : OpenIdConfiguration) (extraCustomParams : Params)
    (env : AttemptEnv) (flag : Bool) (T : Nat) : AttemptOutcome × List Effect × Bool :=
  let s := startRefreshSession config extraCustomParams env.start flag env.startDoneAt
  match s.result with
  | Except.error e => (AttemptOutcome.errored e, s.trace, s.flag)
  | Except.ok _ =>
    match s.doneAt, env.signalAt with
    | some a, some b =>
      if max a b < T then (AttemptOutcome.completed env.signalCtx, s.trace, s.flag)
      else (AttemptOutcome.timedOut, s.trace, s.flag)
    | _, _ => (AttemptOutcome.timedOut, s.trace, s.flag)

/-- Final outcome of a `forceRefreshSession` call: the emitted value
(`LoginResponse` or `null`), a surfaced error, or — for the embedding only —
exhausted fuel (never reached for fuel above the retry bound). -/
inductive RefreshOutcome where
  | value (r : Option LoginResponse)
  | error (e : JsError)
  | fuelOut
deriving Inhabited

/-- The token/user-state collaborators read by `forceRefreshSession`'s `map`:
`areAuthStorageTokensValid`, `getIdToken`, `getAccessToken`,
`getUserDataFromStore`. -/
structure AuthStateEnv where
  tokensValid : Bool
  storedIdToken : Option String
  storedAccessToken : Option String
  userData : Option String
deriving Inhabited

/-- The `map` step of the iframe path: on the joined `[_, callbackContext]`,
build the `LoginResponse` from the signal context's `authResult` when stored
tokens are valid, else emit `null`. -/
def iframeMapStep (config : OpenIdConfiguration) (authEnv : AuthStateEnv)
    (ctx : CallbackContext) : Option LoginResponse :=
  if authEnv.tokensValid then
    some { idToken := ctx.authResult.bind AuthResult.id_token
           accessToken := ctx.authResult.bind AuthResult.access_token
           userData := authEnv.userData
           isAuthenticated := true
           configId := config.configId }
  else
    none

/-- The iframe path of `forceRefreshSession` under the INTENDED wiring of
the retry strategy, i.e. with the strategy's `config` parameter supplied
(`timeoutRetryStrategyAsWired (some config)`):
`forkJoin([...]).pipe(timeout(T), retryWhen(timeoutRetryStrategy), map(...))`.
Each resubscription re-runs `startRefreshSession` over the current flag
state; `index` is the 0-based error count fed to the strategy; retries thread
the flag cleared by `resetSilentRenewRunning` and record the backoff timer.
The source actually wires `retryWhen(this.timeoutRetryStrategy.bind(this))`,
which supplies no `config`, so this retry/reset/backoff path is unreachable
in the program as written; the actual behavior is
`forceRefreshSessionAsWired` below.  This intended-wiring model is kept to
state what the strategy body implements. -/
def iframeLoop (config : OpenIdConfiguration) (authEnv : AuthStateEnv)
    (extraCustomParams : Params) (attempts : Nat → AttemptEnv) (T : Nat)
    (index : Nat) (flag : Bool) : Nat → RefreshOutcome × List Effect × Bool
  | 0 => (RefreshOutcome.fuelOut, [], flag)
  | fuel + 1 =>
    let (out, trace, flag') := runIframeAttempt config extraCustomParams (attempts index) flag T
    match out with
    | AttemptOutcome.completed ctx =>
      (RefreshOutcome.value (iframeMapStep config authEnv ctx), trace, flag')
    | AttemptOutcome.timedOut =>
      match timeoutRetryStrategy config JsError.timeoutError index with
      | Sum.inl (d, effs) =>
        let (res, rest, flag'') :=
          iframeLoop config authEnv extraCustomParams attempts T (index + 1) false fuel
        (res, trace ++ effs ++ [Effect.delay d] ++ rest, flag'')
      | Sum.inr e => (RefreshOutcome.error e, trace, flag')
    | AttemptOutcome.errored e =>
      match timeoutRetryStrategy config e index with
      | Sum.inl (d, effs) =>
        let (res, rest, flag'') :=
          iframeLoop config authEnv extraCustomParams attempts T (index + 1) false fuel
        (res, trace ++ effs ++ [Effect.delay d] ++ rest, flag'')
      | Sum.inr e' => (RefreshOutcome.error e', trace, flag')

/-- External behavior consumed by one `forceRefreshSession` call. -/
structure RefreshSessionEnv where
  authEnv : AuthStateEnv
  start0 : StartEnv
  attempts : Nat → AttemptEnv
deriving Inhabited

/-- `forceRefreshSession(config, extraCustomParams)`: merge the configured
`customParamsRefreshTokenRequest` with the caller's extras; on a
refresh-token-capable code flow run `startRefreshSession` with the merged
map and build the response from the stored tokens; otherwise run the
iframe path (join + timeout + bounded retry) passing only the caller's
extras.  The iframe branch uses the intended-wiring `iframeLoop`; the
program's actual first-error behavior is `forceRefreshSessionAsWired`. -/
def forceRefreshSession (config : OpenIdConfiguration) (extraCustomParams : Params)
    (env : RefreshSessionEnv) (flag : Bool) (fuel : Nat) :
    RefreshOutcome × List Effect × Bool :=
  let mergedParams := mergeParams config.customParamsRefreshTokenRequest extraCustomParams
  if config.isCodeFlowWithRefreshTokens then
    let s := startRefreshSession config mergedParams env.start0 flag none
    match s.result with
    | Except.error e => (RefreshOutcome.error e, s.trace, s.flag)
    | Except.ok _ =>
      if env.authEnv.tokensValid then
        (RefreshOutcome.value (some
          { idToken := env.authEnv.storedIdToken
            accessToken := env.authEnv.storedAccessToken
            userData := env.authEnv.userData
            isAuthenticated := true
            configId := config.configId }), s.trace, s.flag)
      else
        (RefreshOutcome.value none, s.trace, s.flag)
  else
    let timeOutTime := config.silentRenewTimeoutInSeconds * 1000
    iframeLoop config env.authEnv extraCustomParams env.attempts timeOutTime 0 flag fuel

/-- `persistCustomParams(extraCustomParams, config)`: write the extras to the
refresh slot when the configuration uses refresh tokens, else to the
auth-request slot; no write when no extras were given. -/
def persistCustomParams (config : OpenIdConfiguration) (extraCustomParams : Option Params) :
    List Effect :=
  match extraCustomParams with
  | none => []
  | some ps =>
    if config.useRefreshToken then
      [Effect.storageWrite "storageCustomParamsRefresh" config.configId ps]
    else
      [Effect.storageWrite "storageCustomParamsAuthRequest" config.configId ps]

/-- `userForceRefreshSession`: persist the extras, then delegate to
`forceRefreshSession`. -/
def userForceRefreshSession (config : OpenIdConfiguration) (extraCustomParams : Option Params)
    (env : RefreshSessionEnv) (flag : Bool) (fuel : Nat) :
    RefreshOutcome × List Effect × Bool :=
  let pre := persistCustomParams config extraCustomParams
  let (res, trace, flag') :=
    forceRefreshSession config (extraCustomParams.getD []) env flag fuel
  (res, pre ++ trace, flag')

/-- Silent-renew flag state after replaying an effect trace (set/reset
effects for the given configuration id). -/
def flagAfter (configId : String) (initial : Bool) : List Effect → Bool
  | [] => initial
  | Effect.setSilentRenewRunning c :: rest =>
    flagAfter configId (if c == configId then true else initial) rest
  | Effect.resetSilentRenewRunning c :: rest =>
    flagAfter configId (if c == configId then false else initial) rest
  | _ :: rest => flagAfter configId initial rest

/-- Whether a trace contains a network-touching effect (POST or metadata
fetch). -/
def touchesNetwork : List Effect → Bool
  | [] => false
  | Effect.networkPost _ :: _ => true
  | Effect.metadataFetch _ :: _ => true
  | _ :: rest => touchesNetwork rest

/-- The timer delays recorded in a trace, in order. -/
def delaysIn : List Effect → List Nat
  | [] => []
  | Effect.delay d :: rest => d :: delaysIn rest
  | _ :: rest => delaysIn rest

/-- The context update performed on a token-endpoint response: stamp
`state`/`session_state` onto the raw result and store it as `authResult`. -/
def stampAuthResult (ctx : CallbackContext) (idt at_ : Option String) : CallbackContext :=
  let stamped : AuthResult :=
    { id_token := idt
      access_token := at_
      state := some ctx.state
      session_state := some ctx.sessionState }
  { ctx with authResult := some stamped }

/-- The effects of one connectivity-failed POST attempt: the POST, the
warning, and the fixed configured delay. -/
def connectivityRetryBlock (config : OpenIdConfiguration) (te : String) : List Effect :=
  [Effect.networkPost te,
   Effect.logWarning ("OidcService code request " ++ config.authority ++ " - no internet connection"),
   Effect.delay (config.refreshTokenRetryInSeconds * 1000)]

/-- What the subscriber receives when `retryWhen` hands the first pipeline
error to the notifier as actually wired
(`retryWhen(this.timeoutRetryStrategy.bind(this))`): the invocation
`timeoutRetryStrategyAsWired none` throws before any retry logic exists, and
that thrown `TypeError` replaces the original error.  The `Except.ok` branch
is unreachable for the `none` argument and is kept only for totality (it is
the rethrow `retryWhen` would perform). -/
def wiredFirstErrorOutcome (e : JsError) : JsError :=
  match timeoutRetryStrategyAsWired none e 0 with
  | Except.error te => te
  | Except.ok _ => JsError.wrap e

/-- `forceRefreshSession(config, extraCustomParams)` as the program actually
behaves.  The refresh-token branch is identical to `forceRefreshSession`
(that path has no `retryWhen`).  On the iframe branch, the first
subscription of `forkJoin([...]).pipe(timeout(T), ...)` runs as in
`runIframeAttempt`; if it completes, the `map` step runs; on its first error
(timeout, or a branch error), `retryWhen` invokes the bound strategy without
its `config` argument, so the pipeline surfaces `wiredFirstErrorOutcome` —
no retry, no flag reset and no backoff timer ever occur. -/
def forceRefreshSessionAsWired (config : OpenIdConfiguration) (extraCustomParams : Params)
    (env : RefreshSessionEnv) (flag : Bool) : RefreshOutcome × List Effect × Bool :=
  let mergedParams := mergeParams config.customParamsRefreshTokenRequest extraCustomParams
  if config.isCodeFlowWithRefreshTokens then
    let s := startRefreshSession config mergedParams env.start0 flag none
    match s.result with
    | Except.error e => (RefreshOutcome.error e, s.trace, s.flag)
    | Except.ok _ =>
      if env.authEnv.tokensValid then
        (RefreshOutcome.value (some
          { idToken := env.authEnv.storedIdToken
            accessToken := env.authEnv.storedAccessToken
            userData := env.authEnv.userData
            isAuthenticated := true
            configId := config.configId }), s.trace, s.flag)
      else
        (RefreshOutcome.value none, s.trace, s.flag)
  else
    let timeOutTime := config.silentRenewTimeoutInSeconds * 1000
    let (out, trace, flag') :=
      runIframeAttempt config extraCustomParams (env.attempts 0) flag timeOutTime
    match out with
    | AttemptOutcome.completed ctx =>
      (RefreshOutcome.value (iframeMapStep config env.authEnv ctx), trace, flag')
    | AttemptOutcome.timedOut =>
      (RefreshOutcome.error (wiredFirstErrorOutcome JsError.timeoutError), trace, flag')
    | AttemptOutcome.errored e =>
      (RefreshOutcome.error (wiredFirstErrorOutcome e), trace, flag')

/-! ## Theorems -/

/-- C5: `codeFlowCallback` fails with the missing-state error when `state` is
absent (whatever `code` is), fails with the missing-code error when `state`
is present but `code` absent, and otherwise returns a fresh context carrying
exactly the extracted `code`, `state`, `session_state`, with
`isRenewProcess = false`, every other field null, and only a debug log as
side effect. -/
theorem codeFlowCallback_spec (getParam : String → String) (config : OpenIdConfiguration) :
    (getParam "state" = "" →
      codeFlowCallback getParam config =
        (Except.error (JsError.message "no state in url"), [Effect.logDebug "no state in url"])) ∧
    (getParam "state" ≠ "" → getParam "code" = "" →
      codeFlowCallback getParam config =
        (Except.error (JsError.message "no code in url"), [Effect.logDebug "no code in url"])) ∧
    (getParam "state" ≠ "" → getParam "code" ≠ "" →
      codeFlowCallback getParam config =
        (Except.ok
          { code := getParam "code"
            refreshToken := none
            state := getParam "state"
            sessionState := getParam "session_state"
            authResult := none
            isRenewProcess := false
            jwtKeys := none
            validationResult := none
            existingIdToken := none },
          [Effect.logDebug "running validation for callback"])) := by
  refine ⟨fun hs => ?_, fun hs hc => ?_, fun hs hc => ?_⟩
  · simp [codeFlowCallback, hs]
  · simp [codeFlowCallback, hs, hc]
  · simp [codeFlowCallback, hs, hc]

/-- Closed witness for `codeFlowCallback_spec` at concrete URLs. -/
theorem codeFlowCallback_spec_witness :
    (codeFlowCallback (fun _ => "") default =
      (Except.error (JsError.message "no state in url"), [Effect.logDebug "no state in url"])) ∧
    (codeFlowCallback (fun p => if p = "state" then "st1" else "") default =
      (Except.error (JsError.message "no code in url"), [Effect.logDebug "no code in url"])) ∧
    (codeFlowCallback
        (fun p => if p = "state" then "st1" else if p = "code" then "cd1" else "ss1") default =
      (Except.ok
        { code := "cd1"
          refreshToken := none
          state := "st1"
          sessionState := "ss1"
          authResult := none
          isRenewProcess := false
          jwtKeys := none
          validationResult := none
          existingIdToken := none },
        [Effect.logDebug "running validation for callback"])) :=
  ⟨(codeFlowCallback_spec (fun _ => "") default).1 rfl,
   (codeFlowCallback_spec (fun p => if p = "state" then "st1" else "") default).2.1
     (by decide) (by decide),
   (codeFlowCallback_spec
       (fun p => if p = "state" then "st1" else if p = "code" then "cd1" else "ss1") default).2.2
     (by decide) (by decide)⟩

/-- C6: `codeFlowCodeRequest` fails with the state-mismatch error and an empty
effect trace (hence no network call) whenever the stored anti-forgery value
differs from the context's state; with a matching state but no cached token
endpoint it fails with the missing-token-endpoint error, again with no
effects; and when both defects are present the state error wins (the state
comparison runs first). -/
theorem codeFlowCodeRequest_precheck_spec (config : OpenIdConfiguration)
    (ctx : CallbackContext) (env : CodeRequestEnv) (fuel : Nat) :
    (env.authStateControl ≠ ctx.state →
      codeFlowCodeRequest config ctx env fuel =
        some (Except.error (JsError.message "codeFlowCodeRequest incorrect state"), [])) ∧
    (env.authStateControl = ctx.state →
      (env.storedWellKnown >>= fun w => w.tokenEndpoint) = none →
      codeFlowCodeRequest config ctx env fuel =
        some (Except.error (JsError.message "Token Endpoint not defined"), [])) ∧
    (env.authStateControl ≠ ctx.state →
      (env.storedWellKnown >>= fun w => w.tokenEndpoint) = none →
      codeFlowCodeRequest config ctx env fuel =
        some (Except.error (JsError.message "codeFlowCodeRequest incorrect state"), [])) := by
  have hmain : env.authStateControl ≠ ctx.state →
      codeFlowCodeRequest config ctx env fuel =
        some (Except.error (JsError.message "codeFlowCodeRequest incorrect state"), []) := by
    intro hne
    have : ctx.state ≠ env.authStateControl := fun h => hne h.symm
    simp [codeFlowCodeRequest, validateStateFromHashCallback, this]
  refine ⟨hmain, fun heq hwk => ?_, fun hne _ => hmain hne⟩
  simp [codeFlowCodeRequest, validateStateFromHashCallback, heq, hwk]

/-- Closed witness for `codeFlowCodeRequest_precheck_spec` at concrete inputs. -/
theorem codeFlowCodeRequest_precheck_spec_witness :
    (codeFlowCodeRequest default { (default : CallbackContext) with state := "st1" }
        { authStateControl := "other", storedWellKnown := none, net := fun _ => default } 5 =
      some (Except.error (JsError.message "codeFlowCodeRequest incorrect state"), [])) ∧
    (codeFlowCodeRequest default { (default : CallbackContext) with state := "st1" }
        { authStateControl := "st1", storedWellKnown := some { tokenEndpoint := none },
          net := fun _ => default } 5 =
      some (Except.error (JsError.message "Token Endpoint not defined"), [])) :=
  ⟨(codeFlowCodeRequest_precheck_spec default { (default : CallbackContext) with state := "st1" }
      { authStateControl := "other", storedWellKnown := none, net := fun _ => default } 5).1
      (by decide),
   (codeFlowCodeRequest_precheck_spec default { (default : CallbackContext) with state := "st1" }
      { authStateControl := "st1", storedWellKnown := some { tokenEndpoint := none },
        net := fun _ => default } 5).2.1 rfl rfl⟩

/-- The retry loop resolves after `n` connectivity-failed attempts once
attempt `k + n` returns a response, accumulating one retry block per failed
attempt; unbounded in the source, so any fuel above `n` suffices. -/
theorem codeRequestLoop_connectivity_success (config : OpenIdConfiguration)
    (ctx : CallbackContext) (env : CodeRequestEnv) (te : String)
    (idt at_ : Option String) :
    ∀ (n k fuel : Nat), n < fuel →
      (∀ j, j < n → isConnectivityLoss (env.net (k + j)) = true) →
      env.net (k + n) = NetOutcome.success idt at_ →
      codeRequestLoop config ctx env te k fuel =
        some (Except.ok (stampAuthResult ctx idt at_),
          (List.replicate n (connectivityRetryBlock config te)).flatten ++
            [Effect.networkPost te]) := by
  intro n
  induction n with
  | zero =>
    intro k fuel hfuel _ hsucc
    match fuel, hfuel with
    | fuel + 1, _ =>
      rw [Nat.add_zero] at hsucc
      simp [codeRequestLoop, hsucc, stampAuthResult]
  | succ n ih =>
    intro k fuel hfuel hconn hsucc
    match fuel, hfuel with
    | fuel + 1, hfuel =>
      have hc0 : isConnectivityLoss (env.net k) = true := by
        have := hconn 0 (Nat.succ_pos n)
        simpa using this
      have hrec := ih (k + 1) fuel (by omega)
        (fun j hj => by
          have := hconn (j + 1) (by omega)
          simpa [Nat.add_assoc, Nat.add_comm 1 j] using this)
        (by
          have : k + (n + 1) = k + 1 + n := by omega
          rw [← this]; exact hsucc)
      cases he : env.net k with
      | success i a =>
        rw [he] at hc0
        simp [isConnectivityLoss] at hc0
      | failure hh pp tt =>
        rw [he] at hc0
        simp only [codeRequestLoop, he, handleRefreshRetryDecision, hc0, if_true, hrec]
        simp [connectivityRetryBlock, List.replicate_succ]

/-- C3: with a matching state and a cached token endpoint, a POST whose first
`n` attempts are connectivity losses and whose `(n+1)`-st attempt returns a
response resolves with the stamped `authResult`, recording one POST, one
warning and one fixed `refreshTokenRetryInSeconds * 1000` ms delay per failed
attempt (the retry is unbounded: any fuel above `n` suffices); any
non-connectivity first failure surfaces the authority-tagged error after
exactly one POST, with no retry delay. -/
theorem codeFlowCodeRequest_retry_spec (config : OpenIdConfiguration)
    (ctx : CallbackContext) (env : CodeRequestEnv) (te : String)
    (idt at_ : Option String) (n fuel : Nat)
    (hstate : env.authStateControl = ctx.state)
    (hwk : (env.storedWellKnown >>= fun w => w.tokenEndpoint) = some te) :
    ((∀ j, j < n → isConnectivityLoss (env.net j) = true) →
      env.net n = NetOutcome.success idt at_ → n < fuel →
      codeFlowCodeRequest config ctx env fuel =
        some (Except.ok (stampAuthResult ctx idt at_),
          (List.replicate n (connectivityRetryBlock config te)).flatten ++
            [Effect.networkPost te])) ∧
    (isConnectivityLoss (env.net 0) = false →
      (∀ i a, env.net 0 ≠ NetOutcome.success i a) → 0 < fuel →
      codeFlowCodeRequest config ctx env fuel =
        some (Except.error
            (JsError.message ("OidcService code request " ++ config.authority)),
          [Effect.networkPost te,
           Effect.logError ("OidcService code request " ++ config.authority)])) := by
  have hopen : codeFlowCodeRequest config ctx env fuel =
      codeRequestLoop config ctx env te 0 fuel := by
    simp [codeFlowCodeRequest, validateStateFromHashCallback, hstate, hwk]
  constructor
  · intro hconn hsucc hfuel
    rw [hopen]
    exact codeRequestLoop_connectivity_success config ctx env te idt at_ n 0 fuel hfuel
      (fun j hj => by simpa using hconn j hj) (by simpa using hsucc)
  · intro hnc hfail hfuel
    rw [hopen]
    match fuel, hfuel with
    | fuel + 1, _ =>
      cases he : env.net 0 with
      | success i a => exact absurd he (hfail i a)
      | failure hh pp tt =>
        rw [he] at hnc
        simp [codeRequestLoop, he, handleRefreshRetryDecision, hnc]

/-- Closed witness for `codeFlowCodeRequest_retry_spec`: one connectivity
loss then a response succeeds with one delay block; a plain HTTP failure
fails after a single POST. -/
theorem codeFlowCodeRequest_retry_spec_witness :
    (codeFlowCodeRequest
        { (default : OpenIdConfiguration) with
            authority := "https://idp", refreshTokenRetryInSeconds := 2 }
        { (default : CallbackContext) with state := "st1" }
        { authStateControl := "st1"
          storedWellKnown := some { tokenEndpoint := some "https://idp/token" }
          net := fun k => if k = 0 then NetOutcome.failure true true "error"
            else NetOutcome.success (some "id1") (some "at1") } 2 =
      some (Except.ok (stampAuthResult
          { (default : CallbackContext) with state := "st1" } (some "id1") (some "at1")),
        (List.replicate 1 (connectivityRetryBlock
            { (default : OpenIdConfiguration) with
                authority := "https://idp", refreshTokenRetryInSeconds := 2 }
            "https://idp/token")).flatten ++
          [Effect.networkPost "https://idp/token"])) ∧
    (codeFlowCodeRequest
        { (default : OpenIdConfiguration) with
            authority := "https://idp", refreshTokenRetryInSeconds := 2 }
        { (default : CallbackContext) with state := "st1" }
        { authStateControl := "st1"
          storedWellKnown := some { tokenEndpoint := some "https://idp/token" }
          net := fun _ => NetOutcome.failure true false "status" } 2 =
      some (Except.error (JsError.message "OidcService code request https://idp"),
        [Effect.networkPost "https://idp/token",
         Effect.logError "OidcService code request https://idp"])) :=
  ⟨(codeFlowCodeRequest_retry_spec
      { (default : OpenIdConfiguration) with
          authority := "https://idp", refreshTokenRetryInSeconds := 2 }
      { (default : CallbackContext) with state := "st1" }
      { authStateControl := "st1"
        storedWellKnown := some { tokenEndpoint := some "https://idp/token" }
        net := fun k => if k = 0 then NetOutcome.failure true true "error"
          else NetOutcome.success (some "id1") (some "at1") }
      "https://idp/token" (some "id1") (some "at1") 1 2 rfl rfl).1
      (fun j hj => by
        have hj0 : j = 0 := by omega
        subst hj0; rfl)
      rfl (by decide),
   (codeFlowCodeRequest_retry_spec
      { (default : OpenIdConfiguration) with
          authority := "https://idp", refreshTokenRetryInSeconds := 2 }
      { (default : CallbackContext) with state := "st1" }
      { authStateControl := "st1"
        storedWellKnown := some { tokenEndpoint := some "https://idp/token" }
        net := fun _ => NetOutcome.failure true false "status" }
      "https://idp/token" none none 0 2 rfl rfl).2
      rfl (fun i a h => by simp at h) (by decide)⟩

/-- C8: when the delegated implicit-flow processing fails, the orchestrator
always resets the silent-renew flag and stops the periodic token check, it
navigates to `unauthorizedRoute` exactly when the configuration is not in
event-delivery mode and the pre-delegation renewal flag was false, and the
surfaced result is the wrapped original error. -/
theorem authenticatedImplicitFlowCallback_failure_spec (config : OpenIdConfiguration)
    (env : ImplicitEnv) (e : JsError) (h : env.processOutcome = Except.error e) :
    (authenticatedImplicitFlowCallback config env).1 = Except.error (JsError.wrap e) ∧
    Effect.resetSilentRenewRunning config.configId ∈
      (authenticatedImplicitFlowCallback config env).2 ∧
    Effect.stopPeriodicTokenCheck ∈ (authenticatedImplicitFlowCallback config env).2 ∧
    (Effect.navigate config.unauthorizedRoute ∈ (authenticatedImplicitFlowCallback config env).2 ↔
      (config.triggerAuthorizationResultEvent = false ∧ env.isSilentRenewRunning = false)) := by
  cases ht : config.triggerAuthorizationResultEvent <;>
    cases hr : env.isSilentRenewRunning <;>
      simp [authenticatedImplicitFlowCallback, h, ht, hr]

/-- Closed witness for `authenticatedImplicitFlowCallback_failure_spec` at a
concrete failing delegation. -/
theorem authenticatedImplicitFlowCallback_failure_spec_witness :
    (authenticatedImplicitFlowCallback
        { (default : OpenIdConfiguration) with
            configId := "cfg1", unauthorizedRoute := "/unauthorized",
            triggerAuthorizationResultEvent := false }
        { isSilentRenewRunning := false
          processOutcome := Except.error (JsError.message "boom") }).1 =
      Except.error (JsError.wrap (JsError.message "boom")) ∧
    Effect.resetSilentRenewRunning "cfg1" ∈
      (authenticatedImplicitFlowCallback
        { (default : OpenIdConfiguration) with
            configId := "cfg1", unauthorizedRoute := "/unauthorized",
            triggerAuthorizationResultEvent := false }
        { isSilentRenewRunning := false
          processOutcome := Except.error (JsError.message "boom") }).2 ∧
    Effect.stopPeriodicTokenCheck ∈
      (authenticatedImplicitFlowCallback
        { (default : OpenIdConfiguration) with
            configId := "cfg1", unauthorizedRoute := "/unauthorized",
            triggerAuthorizationResultEvent := false }
        { isSilentRenewRunning := false
          processOutcome := Except.error (JsError.message "boom") }).2 ∧
    (Effect.navigate "/unauthorized" ∈
      (authenticatedImplicitFlowCallback
        { (default : OpenIdConfiguration) with
            configId := "cfg1", unauthorizedRoute := "/unauthorized",
            triggerAuthorizationResultEvent := false }
        { isSilentRenewRunning := false
          processOutcome := Except.error (JsError.message "boom") }).2 ↔
      (false = false ∧ false = false)) :=
  authenticatedImplicitFlowCallback_failure_spec
    { (default : OpenIdConfiguration) with
        configId := "cfg1", unauthorizedRoute := "/unauthorized",
        triggerAuthorizationResultEvent := false }
    { isSilentRenewRunning := false
      processOutcome := Except.error (JsError.message "boom") }
    (JsError.message "boom") rfl

/-- C4: `startRefreshSession` is a no-op null (only the checking debug log,
no metadata fetch, no flag write) when a renewal is already running; a logged
null when no well-known URL is configured; and otherwise it fetches the
metadata and — in trace order, only after that fetch resolves — sets the
in-progress flag and then dispatches to the refresh-token or iframe
collaborator; when the metadata fetch errors, the flag is never set. -/
theorem startRefreshSession_spec (config : OpenIdConfiguration) (params : Params)
    (env : StartEnv) (flag : Bool) (dAt : Option Nat) :
    (flag = true →
      startRefreshSession config params env flag dAt =
        { result := Except.ok StartResult.nullResult
          trace := [Effect.logDebug ("Checking: silentRenewRunning: " ++ toString true)]
          flag := true
          doneAt := some 0 }) ∧
    (flag = false → config.authWellknownEndpointUrl = "" →
      startRefreshSession config params env flag dAt =
        { result := Except.ok StartResult.nullResult
          trace := [Effect.logDebug ("Checking: silentRenewRunning: " ++ toString false),
                    Effect.logError "no authWellKnownEndpoint given!"]
          flag := false
          doneAt := some 0 }) ∧
    (flag = false → config.authWellknownEndpointUrl ≠ "" → env.metadataError = none →
      env.dispatchError = none →
      startRefreshSession config params env flag dAt =
        { result := Except.ok StartResult.dispatched
          trace := [Effect.logDebug ("Checking: silentRenewRunning: " ++ toString false),
                    Effect.metadataFetch config.authWellknownEndpointUrl,
                    Effect.setSilentRenewRunning config.configId,
                    if config.isCodeFlowWithRefreshTokens then
                      Effect.dispatchRefreshTokens config.configId params
                    else
                      Effect.dispatchIframe config.configId params]
          flag := true
          doneAt := dAt }) ∧
    (flag = false → config.authWellknownEndpointUrl ≠ "" →
      ∀ e, env.metadataError = some e →
      startRefreshSession config params env flag dAt =
        { result := Except.error e
          trace := [Effect.logDebug ("Checking: silentRenewRunning: " ++ toString false),
                    Effect.metadataFetch config.authWellknownEndpointUrl]
          flag := false
          doneAt := none }) := by
  refine ⟨fun hf => ?_, fun hf hurl => ?_, fun hf hurl hme hde => ?_, fun hf hurl e hme => ?_⟩
  · simp [startRefreshSession, hf]
  · simp [startRefreshSession, hf, hurl]
  · simp [startRefreshSession, hf, hurl, hme, hde]
  · simp [startRefreshSession, hf, hurl, hme]

/-- Closed witness for `startRefreshSession_spec`: the three main branches at
concrete inputs. -/
theorem startRefreshSession_spec_witness :
    (startRefreshSession
        { (default : OpenIdConfiguration) with
            configId := "cfg2", authWellknownEndpointUrl := "https://idp/.well-known" }
        [] { metadataError := none, dispatchError := none } true (some 7) =
      { result := Except.ok StartResult.nullResult
        trace := [Effect.logDebug ("Checking: silentRenewRunning: " ++ toString true)]
        flag := true
        doneAt := some 0 }) ∧
    (startRefreshSession { (default : OpenIdConfiguration) with configId := "cfg2" }
        [] { metadataError := none, dispatchError := none } false (some 7) =
      { result := Except.ok StartResult.nullResult
        trace := [Effect.logDebug ("Checking: silentRenewRunning: " ++ toString false),
                  Effect.logError "no authWellKnownEndpoint given!"]
        flag := false
        doneAt := some 0 }) ∧
    (startRefreshSession
        { (default : OpenIdConfiguration) with
            configId := "cfg2", authWellknownEndpointUrl := "https://idp/.well-known" }
        [("p", "v")] { metadataError := none, dispatchError := none } false (some 7) =
      { result := Except.ok StartResult.dispatched
        trace := [Effect.logDebug ("Checking: silentRenewRunning: " ++ toString false),
                  Effect.metadataFetch "https://idp/.well-known",
                  Effect.setSilentRenewRunning "cfg2",
                  if (false : Bool) then Effect.dispatchRefreshTokens "cfg2" [("p", "v")]
                  else Effect.dispatchIframe "cfg2" [("p", "v")]]
        flag := true
        doneAt := some 7 }) :=
  ⟨(startRefreshSession_spec
      { (default : OpenIdConfiguration) with
          configId := "cfg2", authWellknownEndpointUrl := "https://idp/.well-known" }
      [] { metadataError := none, dispatchError := none } true (some 7)).1 rfl,
   (startRefreshSession_spec { (default : OpenIdConfiguration) with configId := "cfg2" }
      [] { metadataError := none, dispatchError := none } false (some 7)).2.1 rfl rfl,
   (startRefreshSession_spec
      { (default : OpenIdConfiguration) with
          configId := "cfg2", authWellknownEndpointUrl := "https://idp/.well-known" }
      [("p", "v")] { metadataError := none, dispatchError := none } false (some 7)).2.2.1
      rfl (by decide) rfl rfl⟩

/-- C7: on a refresh-token-capable code flow, `forceRefreshSession` runs
`startRefreshSession` and then builds the `LoginResponse` from the currently
stored ID token, access token and user data (authenticated, with the
configuration id) when the stored tokens are valid, or emits `null` when they
are not; the path records no delay and its outcome is independent of the
iframe-signal environment and of the retry fuel (no timeout, no timeout
retry, no wait on the iframe-completed signal). -/
theorem forceRefreshSession_refreshToken_spec (config : OpenIdConfiguration)
    (extra : Params) (env : RefreshSessionEnv) (flag : Bool) (fuel : Nat)
    (hflow : config.isCodeFlowWithRefreshTokens = true)
    (hme : env.start0.metadataError = none) (hde : env.start0.dispatchError = none) :
    (env.authEnv.tokensValid = true →
      (forceRefreshSession config extra env flag fuel).1 =
        RefreshOutcome.value (some
          { idToken := env.authEnv.storedIdToken
            accessToken := env.authEnv.storedAccessToken
            userData := env.authEnv.userData
            isAuthenticated := true
            configId := config.configId })) ∧
    (env.authEnv.tokensValid = false →
      (forceRefreshSession config extra env flag fuel).1 = RefreshOutcome.value none) ∧
    delaysIn (forceRefreshSession config extra env flag fuel).2.1 = [] ∧
    (∀ (attempts' : Nat → AttemptEnv) (fuel' : Nat),
      forceRefreshSession config extra
          { authEnv := env.authEnv, start0 := env.start0, attempts := attempts' }
          flag fuel' =
        forceRefreshSession config extra env flag fuel) := by
  have hres : (startRefreshSession config
      (mergeParams config.customParamsRefreshTokenRequest extra) env.start0 flag none).result =
      Except.ok (if flag then StartResult.nullResult
        else if config.authWellknownEndpointUrl == "" then StartResult.nullResult
        else StartResult.dispatched) := by
    cases flag <;> by_cases hurl : config.authWellknownEndpointUrl = "" <;>
      simp [startRefreshSession, hme, hde, hurl]
  have htrace : delaysIn (startRefreshSession config
      (mergeParams config.customParamsRefreshTokenRequest extra) env.start0 flag none).trace
      = [] := by
    cases flag <;> by_cases hurl : config.authWellknownEndpointUrl = "" <;>
      simp [startRefreshSession, hme, hde, hurl, hflow, delaysIn]
  refine ⟨fun hv => ?_, fun hv => ?_, ?_, fun attempts' fuel' => ?_⟩
  · simp [forceRefreshSession, hflow, hres, hv]
  · simp [forceRefreshSession, hflow, hres, hv]
  · simp only [forceRefreshSession, hflow, if_true]
    rw [hres]
    cases hv : env.authEnv.tokensValid <;> simp [htrace, hv]
  · simp only [forceRefreshSession, hflow, if_true]

/-- Closed witness for `forceRefreshSession_refreshToken_spec` at a concrete
refresh-token configuration with valid stored tokens. -/
theorem forceRefreshSession_refreshToken_spec_witness :
    (forceRefreshSession
        { (default : OpenIdConfiguration) with
            configId := "cfgA", authWellknownEndpointUrl := "https://idp/wk",
            isCodeFlowWithRefreshTokens := true }
        [("x", "1")]
        { authEnv :=
            { tokensValid := true
              storedIdToken := some "storedId"
              storedAccessToken := some "storedAt"
              userData := some "alice" }
          start0 := { metadataError := none, dispatchError := none }
          attempts := fun _ => default }
        false 0).1 =
      RefreshOutcome.value (some
        { idToken := some "storedId"
          accessToken := some "storedAt"
          userData := some "alice"
          isAuthenticated := true
          configId := "cfgA" }) :=
  (forceRefreshSession_refreshToken_spec
    { (default : OpenIdConfiguration) with
        configId := "cfgA", authWellknownEndpointUrl := "https://idp/wk",
        isCodeFlowWithRefreshTokens := true }
    [("x", "1")]
    { authEnv :=
        { tokensValid := true
          storedIdToken := some "storedId"
          storedAccessToken := some "storedAt"
          userData := some "alice" }
      start0 := { metadataError := none, dispatchError := none }
      attempts := fun _ => default }
    false 0 rfl rfl rfl).1 rfl

/-- C9: one iframe-path attempt completes only when both the
`startRefreshSession` branch and the completion signal have settled within
the timeout (a join, not a first-wins race); in particular, when
`startRefreshSession` yields its immediate `null` (renewal already running,
or no well-known URL) and the signal never arrives, the attempt does not
resolve with that `null` but runs into the timeout, and when the signal does
arrive in time the attempt completes with the signal's context. -/
theorem forceRefreshSession_join_spec (config : OpenIdConfiguration) (extra : Params)
    (aenv : AttemptEnv) (flag : Bool) (T : Nat) :
    (∀ ctx trace flag',
      runIframeAttempt config extra aenv flag T = (AttemptOutcome.completed ctx, trace, flag') →
      ∃ a b, (startRefreshSession config extra aenv.start flag aenv.startDoneAt).doneAt = some a ∧
        aenv.signalAt = some b ∧ max a b < T ∧ ctx = aenv.signalCtx) ∧
    (flag = true → aenv.signalAt = none →
      (runIframeAttempt config extra aenv flag T).1 = AttemptOutcome.timedOut) ∧
    (flag = false → config.authWellknownEndpointUrl = "" → aenv.signalAt = none →
      (runIframeAttempt config extra aenv flag T).1 = AttemptOutcome.timedOut) ∧
    (∀ b, flag = true → aenv.signalAt = some b → b < T →
      (runIframeAttempt config extra aenv flag T).1 =
        AttemptOutcome.completed aenv.signalCtx) := by
  refine ⟨fun ctx trace flag' h => ?_, fun hf hsig => ?_, fun hf hurl hsig => ?_,
    fun b hf hsig hbT => ?_⟩
  · simp only [runIframeAttempt] at h
    cases hr : (startRefreshSession config extra aenv.start flag aenv.startDoneAt).result with
    | error e => rw [hr] at h; simp at h
    | ok r =>
      rw [hr] at h
      cases hd : (startRefreshSession config extra aenv.start flag aenv.startDoneAt).doneAt with
      | none =>
        rw [hd] at h
        cases hsig : aenv.signalAt <;> rw [hsig] at h <;> simp at h
      | some a =>
        rw [hd] at h
        cases hsig : aenv.signalAt with
        | none => rw [hsig] at h; simp at h
        | some b =>
          rw [hsig] at h
          by_cases hmax : max a b < T
          · simp [hmax] at h
            exact ⟨a, b, rfl, rfl, hmax, h.1.symm⟩
          · simp [hmax] at h
  · simp [runIframeAttempt, startRefreshSession, hf, hsig]
  · simp [runIframeAttempt, startRefreshSession, hf, hurl, hsig]
  · simp [runIframeAttempt, startRefreshSession, hf, hsig, Nat.zero_max, hbT]

/-- Closed witness for `forceRefreshSession_join_spec`: a concrete completed
join, a concrete already-running renewal with no signal running into the
timeout, and the same renewal completing once the signal arrives. -/
theorem forceRefreshSession_join_spec_witness :
    (∃ a b,
      (startRefreshSession
          { (default : OpenIdConfiguration) with
              configId := "c9", authWellknownEndpointUrl := "https://wk9" } []
          { metadataError := none, dispatchError := none } false (some 1)).doneAt = some a ∧
      (some 2 : Option Nat) = some b ∧ max a b < 10 ∧
      (default : CallbackContext) = (default : CallbackContext)) ∧
    ((runIframeAttempt
        { (default : OpenIdConfiguration) with
            configId := "c9", authWellknownEndpointUrl := "https://wk9" } []
        { start := { metadataError := none, dispatchError := none }
          startDoneAt := some 1, signalAt := none, signalCtx := default }
        true 10).1 = AttemptOutcome.timedOut) ∧
    ((runIframeAttempt
        { (default : OpenIdConfiguration) with
            configId := "c9", authWellknownEndpointUrl := "https://wk9" } []
        { start := { metadataError := none, dispatchError := none }
          startDoneAt := some 1, signalAt := some 2, signalCtx := default }
        true 10).1 = AttemptOutcome.completed (default : CallbackContext)) :=
  ⟨(forceRefreshSession_join_spec
      { (default : OpenIdConfiguration) with
          configId := "c9", authWellknownEndpointUrl := "https://wk9" } []
      { start := { metadataError := none, dispatchError := none }
        startDoneAt := some 1, signalAt := some 2, signalCtx := default }
      false 10).1 default
      [Effect.logDebug ("Checking: silentRenewRunning: " ++ toString false),
       Effect.metadataFetch "https://wk9",
       Effect.setSilentRenewRunning "c9",
       Effect.dispatchIframe "c9" []]
      true rfl,
   (forceRefreshSession_join_spec
      { (default : OpenIdConfiguration) with
          configId := "c9", authWellknownEndpointUrl := "https://wk9" } []
      { start := { metadataError := none, dispatchError := none }
        startDoneAt := some 1, signalAt := none, signalCtx := default }
      true 10).2.1 rfl rfl,
   (forceRefreshSession_join_spec
      { (default : OpenIdConfiguration) with
          configId := "c9", authWellknownEndpointUrl := "https://wk9" } []
      { start := { metadataError := none, dispatchError := none }
        startDoneAt := some 1, signalAt := some 2, signalCtx := default }
      true 10).2.2.2 2 rfl rfl (by decide)⟩

/-- Object-spread lookup: in `{...a, ...b}` the right (caller) side wins on
key collisions, falling back to the left (configured) side. -/
theorem lookupParam_append (a b : Params) (k : String) :
    lookupParam (a ++ b) k =
      match lookupParam b k with
      | some v => some v
      | none => lookupParam a k := by
  induction a with
  | nil => cases h : lookupParam b k <;> simp [lookupParam, h]
  | cons p a ih =>
    obtain ⟨k', v⟩ := p
    have hcons : lookupParam (((k', v) :: a) ++ b) k =
        match lookupParam (a ++ b) k with
        | some v' => some v'
        | none => if k' == k then some v else none := rfl
    rw [hcons, ih]
    cases h : lookupParam b k
    · cases h' : lookupParam a k <;> simp [lookupParam, h']
    · rfl

/-- The effect trace of one iframe-path attempt is precisely the trace of its
`startRefreshSession` call (the join and timeout add no effects). -/
theorem runIframeAttempt_trace (config : OpenIdConfiguration) (extra : Params)
    (aenv : AttemptEnv) (flag : Bool) (T : Nat) :
    (runIframeAttempt config extra aenv flag T).2.1 =
      (startRefreshSession config extra aenv.start flag aenv.startDoneAt).trace := by
  cases hr : (startRefreshSession config extra aenv.start flag aenv.startDoneAt).result with
  | error e => simp [runIframeAttempt, hr]
  | ok r =>
    cases hd : (startRefreshSession config extra aenv.start flag aenv.startDoneAt).doneAt with
    | none => cases hsig : aenv.signalAt <;> simp [runIframeAttempt, hr, hd, hsig]
    | some a =>
      cases hsig : aenv.signalAt with
      | none => simp [runIframeAttempt, hr, hd, hsig]
      | some b =>
        by_cases hmax : max a b < T <;> simp [runIframeAttempt, hr, hd, hsig, hmax]

/-- The loop's trace begins with the first attempt's trace, whatever the
outcome. -/
theorem iframeLoop_trace_prefix (config : OpenIdConfiguration) (authEnv : AuthStateEnv)
    (extra : Params) (attempts : Nat → AttemptEnv) (T index : Nat) (flag : Bool)
    (fuel : Nat) :
    ∃ rest, (iframeLoop config authEnv extra attempts T index flag (fuel + 1)).2.1 =
      (runIframeAttempt config extra (attempts index) flag T).2.1 ++ rest := by
  rcases h : runIframeAttempt config extra (attempts index) flag T with ⟨out, trace, flag'⟩
  cases out with
  | completed ctx => exact ⟨[], by simp [iframeLoop, h]⟩
  | timedOut =>
    cases hs : timeoutRetryStrategy config JsError.timeoutError index with
    | inl p =>
      obtain ⟨d, effs⟩ := p
      exact ⟨effs ++ Effect.delay d ::
          (iframeLoop config authEnv extra attempts T (index + 1) false fuel).2.1,
        by simp [iframeLoop, h, hs]⟩
    | inr e => exact ⟨[], by simp [iframeLoop, h, hs]⟩
  | errored e =>
    cases hs : timeoutRetryStrategy config e index with
    | inl p =>
      obtain ⟨d, effs⟩ := p
      exact ⟨effs ++ Effect.delay d ::
          (iframeLoop config authEnv extra attempts T (index + 1) false fuel).2.1,
        by simp [iframeLoop, h, hs]⟩
    | inr e' => exact ⟨[], by simp [iframeLoop, h, hs]⟩

/-- C10: `{...customParamsRefreshTokenRequest, ...extraCustomParams}` lets the
caller's extras win on key collisions; `forceRefreshSession` forwards that
merged map to `startRefreshSession` only on the refresh-token path (the
dispatch to the refresh-token collaborator carries the merged map), while the
iframe path forwards only the caller-supplied extras (the iframe dispatch
carries exactly `extraCustomParams`, never the configured map). -/
theorem forceRefreshSession_params_spec (config : OpenIdConfiguration) (extra : Params)
    (env : RefreshSessionEnv) (flag : Bool) (fuel : Nat) :
    (∀ (a b : Params) (k : String),
      lookupParam (mergeParams a b) k =
        match lookupParam b k with
        | some v => some v
        | none => lookupParam a k) ∧
    (config.isCodeFlowWithRefreshTokens = true → flag = false →
      config.authWellknownEndpointUrl ≠ "" → env.start0.metadataError = none →
      Effect.dispatchRefreshTokens config.configId
          (mergeParams config.customParamsRefreshTokenRequest extra) ∈
        (forceRefreshSession config extra env flag fuel).2.1) ∧
    (config.isCodeFlowWithRefreshTokens = false → flag = false →
      config.authWellknownEndpointUrl ≠ "" → (env.attempts 0).start.metadataError = none →
      ∀ f, fuel = f + 1 →
      Effect.dispatchIframe config.configId extra ∈
        (forceRefreshSession config extra env flag fuel).2.1) := by
  refine ⟨fun a b k => lookupParam_append a b k, fun hflow hf hurl hme => ?_,
    fun hflow hf hurl hme f hfuel => ?_⟩
  · subst hf
    cases hde : env.start0.dispatchError <;>
      cases htv : env.authEnv.tokensValid <;>
        simp [forceRefreshSession, hflow, startRefreshSession, hurl, hme, hde, htv]
  · subst hf hfuel
    have hpre := iframeLoop_trace_prefix config env.authEnv extra env.attempts
      (config.silentRenewTimeoutInSeconds * 1000) 0 false f
    obtain ⟨rest, hrest⟩ := hpre
    have htr := runIframeAttempt_trace config extra (env.attempts 0) false
      (config.silentRenewTimeoutInSeconds * 1000)
    have hfr : (forceRefreshSession config extra env false (f + 1)).2.1 =
        (iframeLoop config env.authEnv extra env.attempts
          (config.silentRenewTimeoutInSeconds * 1000) 0 false (f + 1)).2.1 := by
      simp [forceRefreshSession, hflow]
    rw [hfr, hrest, htr]
    cases hde : (env.attempts 0).start.dispatchError <;>
      simp [startRefreshSession, hurl, hme, hde, hflow]

/-- Closed witness for `forceRefreshSession_params_spec`: merged params on the
refresh-token dispatch, caller extras only on the iframe dispatch, with a
colliding key resolved in the caller's favor. -/
theorem forceRefreshSession_params_spec_witness :
    (lookupParam (mergeParams [("k", "configured"), ("c", "1")] [("k", "caller")]) "k" =
      match lookupParam [("k", "caller")] "k" with
      | some v => some v
      | none => lookupParam [("k", "configured"), ("c", "1")] "k") ∧
    (Effect.dispatchRefreshTokens "cA"
        (mergeParams [("k", "configured"), ("c", "1")] [("k", "caller")]) ∈
      (forceRefreshSession
        { (default : OpenIdConfiguration) with
            configId := "cA", authWellknownEndpointUrl := "https://wkA",
            isCodeFlowWithRefreshTokens := true,
            customParamsRefreshTokenRequest := [("k", "configured"), ("c", "1")] }
        [("k", "caller")]
        { authEnv := default
          start0 := { metadataError := none, dispatchError := none }
          attempts := fun _ => default }
        false 1).2.1) ∧
    (Effect.dispatchIframe "cB" [("k", "caller")] ∈
      (forceRefreshSession
        { (default : OpenIdConfiguration) with
            configId := "cB", authWellknownEndpointUrl := "https://wkB",
            customParamsRefreshTokenRequest := [("k", "configured"), ("c", "1")] }
        [("k", "caller")]
        { authEnv := default
          start0 := { metadataError := none, dispatchError := none }
          attempts := fun _ =>
            { start := { metadataError := none, dispatchError := none }
              startDoneAt := some 0, signalAt := none, signalCtx := default } }
        false 1).2.1) :=
  ⟨(forceRefreshSession_params_spec default [] default false 0).1
      [("k", "configured"), ("c", "1")] [("k", "caller")] "k",
   (forceRefreshSession_params_spec
      { (default : OpenIdConfiguration) with
          configId := "cA", authWellknownEndpointUrl := "https://wkA",
          isCodeFlowWithRefreshTokens := true,
          customParamsRefreshTokenRequest := [("k", "configured"), ("c", "1")] }
      [("k", "caller")]
      { authEnv := default
        start0 := { metadataError := none, dispatchError := none }
        attempts := fun _ => default }
      false 1).2.1 rfl rfl (by decide) rfl,
   (forceRefreshSession_params_spec
      { (default : OpenIdConfiguration) with
          configId := "cB", authWellknownEndpointUrl := "https://wkB",
          customParamsRefreshTokenRequest := [("k", "configured"), ("c", "1")] }
      [("k", "caller")]
      { authEnv := default
        start0 := { metadataError := none, dispatchError := none }
        attempts := fun _ =>
          { start := { metadataError := none, dispatchError := none }
            startDoneAt := some 0, signalAt := none, signalCtx := default } }
      false 1).2.2 rfl rfl (by decide) rfl 0 rfl⟩

/-- `delaysIn` distributes over trace concatenation. -/
theorem delaysIn_append (a b : List Effect) :
    delaysIn (a ++ b) = delaysIn a ++ delaysIn b := by
  induction a with
  | nil => rfl
  | cons e a ih => cases e <;> simp [delaysIn, ih]

/-- An iframe-path attempt whose dispatch settles immediately but whose
completion signal never arrives runs into the timeout, leaving the flag set
and the dispatch recorded. -/
theorem runIframeAttempt_timeoutCase (config : OpenIdConfiguration) (extra : Params)
    (aenv : AttemptEnv) (T : Nat)
    (hurl : config.authWellknownEndpointUrl ≠ "")
    (hflow : config.isCodeFlowWithRefreshTokens = false)
    (hme : aenv.start.metadataError = none) (hde : aenv.start.dispatchError = none)
    (hdone : aenv.startDoneAt = some 0) (hsig : aenv.signalAt = none) :
    runIframeAttempt config extra aenv false T =
      (AttemptOutcome.timedOut,
        [Effect.logDebug ("Checking: silentRenewRunning: " ++ toString false),
         Effect.metadataFetch config.authWellknownEndpointUrl,
         Effect.setSilentRenewRunning config.configId,
         Effect.dispatchIframe config.configId extra],
        true) := by
  simp [runIframeAttempt, startRefreshSession, hurl, hflow, hme, hde, hdone, hsig]

/-- A renewal whose every attempt times out performs exactly three backoff
retries (1000, 2000, 3000 ms), then surfaces the wrapped timeout error with
the in-progress flag left set (the fourth attempt set it; the terminal throw
does not clear it). -/
theorem iframeLoop_allTimeout (config : OpenIdConfiguration) (authEnv : AuthStateEnv)
    (extra : Params) (attempts : Nat → AttemptEnv) (T : Nat)
    (hurl : config.authWellknownEndpointUrl ≠ "")
    (hflow : config.isCodeFlowWithRefreshTokens = false)
    (henv : ∀ i, (attempts i).start.metadataError = none ∧
      (attempts i).start.dispatchError = none ∧
      (attempts i).startDoneAt = some 0 ∧ (attempts i).signalAt = none)
    (m : Nat) :
    (iframeLoop config authEnv extra attempts T 0 false (m + 1 + 1 + 1 + 1)).1 =
      RefreshOutcome.error (JsError.wrap JsError.timeoutError) ∧
    (iframeLoop config authEnv extra attempts T 0 false (m + 1 + 1 + 1 + 1)).2.2 = true ∧
    delaysIn (iframeLoop config authEnv extra attempts T 0 false (m + 1 + 1 + 1 + 1)).2.1 =
      [1000, 2000, 3000] := by
  have a0 := runIframeAttempt_timeoutCase config extra (attempts 0) T hurl hflow
    (henv 0).1 (henv 0).2.1 (henv 0).2.2.1 (henv 0).2.2.2
  have a1 := runIframeAttempt_timeoutCase config extra (attempts 1) T hurl hflow
    (henv 1).1 (henv 1).2.1 (henv 1).2.2.1 (henv 1).2.2.2
  have a2 := runIframeAttempt_timeoutCase config extra (attempts 2) T hurl hflow
    (henv 2).1 (henv 2).2.1 (henv 2).2.2.1 (henv 2).2.2.2
  have a3 := runIframeAttempt_timeoutCase config extra (attempts 3) T hurl hflow
    (henv 3).1 (henv 3).2.1 (henv 3).2.2.1 (henv 3).2.2.2
  refine ⟨?_, ?_, ?_⟩ <;>
    simp [iframeLoop, a0, a1, a2, a3, timeoutRetryStrategy, isTimeoutError,
      MAX_RETRY_ATTEMPTS, delaysIn_append, delaysIn]

/-- C1: the strategy body of `timeoutRetryStrategy` implements exactly the
claimed policy — on the `index`-th (0-based) error, a timeout with fewer than
`MAX_RETRY_ATTEMPTS = 3` prior timeouts clears the in-progress flag and
schedules a retry after `(index + 1) * 1000` ms (1s/2s/3s between attempts
1→2, 2→3, 3→4); a timeout at or beyond the bound, or any non-timeout error,
is wrapped and thrown; and a run whose four attempts all time out observes
the backoff delays 1000, 2000, 3000 ms and ends in the wrapped terminal
failure.  However, as wired (`retryWhen(this.timeoutRetryStrategy.bind(this))`
passes no `config`), every invocation of the strategy throws a `TypeError`
instead (last conjunct), so the claimed retry behavior is unreachable in the
code as written. -/
theorem timeoutRetryStrategy_spec (config : OpenIdConfiguration) (e : JsError)
    (index : Nat) :
    (index < MAX_RETRY_ATTEMPTS →
      timeoutRetryStrategy config JsError.timeoutError index =
        Sum.inl ((index + 1) * 1000,
          [Effect.logDebug ("forceRefreshSession timeout. Attempt #" ++ toString (index + 1)),
           Effect.resetSilentRenewRunning config.configId])) ∧
    (MAX_RETRY_ATTEMPTS ≤ index →
      timeoutRetryStrategy config JsError.timeoutError index =
        Sum.inr (JsError.wrap JsError.timeoutError)) ∧
    (isTimeoutError e = false →
      timeoutRetryStrategy config e index = Sum.inr (JsError.wrap e)) ∧
    (∀ (authEnv : AuthStateEnv) (extra : Params) (attempts : Nat → AttemptEnv) (T m : Nat),
      config.authWellknownEndpointUrl ≠ "" →
      config.isCodeFlowWithRefreshTokens = false →
      (∀ i, (attempts i).start.metadataError = none ∧
        (attempts i).start.dispatchError = none ∧
        (attempts i).startDoneAt = some 0 ∧ (attempts i).signalAt = none) →
      delaysIn (iframeLoop config authEnv extra attempts T 0 false (m + 1 + 1 + 1 + 1)).2.1 =
          [1000, 2000, 3000] ∧
        (iframeLoop config authEnv extra attempts T 0 false (m + 1 + 1 + 1 + 1)).1 =
          RefreshOutcome.error (JsError.wrap JsError.timeoutError)) ∧
    (∀ (e' : JsError) (i : Nat),
      timeoutRetryStrategyAsWired none e' i =
        Except.error (JsError.message
          "TypeError: Cannot destructure property configId of undefined")) := by
  refine ⟨fun h => ?_, fun h => ?_, fun h => ?_,
    fun authEnv extra attempts T m hurl hflow henv => ?_, fun e' i => rfl⟩
  · have hc : ¬(index + 1 > MAX_RETRY_ATTEMPTS) := by
      simp only [MAX_RETRY_ATTEMPTS] at h ⊢; omega
    simp [timeoutRetryStrategy, isTimeoutError, hc]
  · have hc : index + 1 > MAX_RETRY_ATTEMPTS := by
      simp only [MAX_RETRY_ATTEMPTS] at h ⊢; omega
    simp [timeoutRetryStrategy, isTimeoutError, hc]
  · simp [timeoutRetryStrategy, h]
  · have hall := iframeLoop_allTimeout config authEnv extra attempts T hurl hflow henv m
    exact ⟨hall.2.2, hall.1⟩

/-- Closed witness for `timeoutRetryStrategy_spec`: the three strategy
decisions and a concrete all-timeout run. -/
theorem timeoutRetryStrategy_spec_witness :
    (timeoutRetryStrategy { (default : OpenIdConfiguration) with configId := "cT" }
        JsError.timeoutError 1 =
      Sum.inl ((1 + 1) * 1000,
        [Effect.logDebug ("forceRefreshSession timeout. Attempt #" ++ toString (1 + 1)),
         Effect.resetSilentRenewRunning "cT"])) ∧
    (timeoutRetryStrategy { (default : OpenIdConfiguration) with configId := "cT" }
        JsError.timeoutError 3 = Sum.inr (JsError.wrap JsError.timeoutError)) ∧
    (timeoutRetryStrategy { (default : OpenIdConfiguration) with configId := "cT" }
        (JsError.message "boom") 0 = Sum.inr (JsError.wrap (JsError.message "boom"))) ∧
    (delaysIn (iframeLoop
        { (default : OpenIdConfiguration) with
            configId := "cT", authWellknownEndpointUrl := "https://wkT" }
        default []
        (fun _ => { start := { metadataError := none, dispatchError := none }
                    startDoneAt := some 0, signalAt := none, signalCtx := default })
        2000 0 false (0 + 1 + 1 + 1 + 1)).2.1 = [1000, 2000, 3000]) ∧
    (timeoutRetryStrategyAsWired none JsError.timeoutError 0 =
      Except.error (JsError.message
        "TypeError: Cannot destructure property configId of undefined")) :=
  ⟨(timeoutRetryStrategy_spec { (default : OpenIdConfiguration) with configId := "cT" }
      JsError.timeoutError 1).1 (by decide),
   (timeoutRetryStrategy_spec { (default : OpenIdConfiguration) with configId := "cT" }
      JsError.timeoutError 3).2.1 (by decide),
   (timeoutRetryStrategy_spec { (default : OpenIdConfiguration) with configId := "cT" }
      (JsError.message "boom") 0).2.2.1 rfl,
   ((timeoutRetryStrategy_spec
      { (default : OpenIdConfiguration) with
          configId := "cT", authWellknownEndpointUrl := "https://wkT" }
      JsError.timeoutError 0).2.2.2.1 default []
      (fun _ => { start := { metadataError := none, dispatchError := none }
                  startDoneAt := some 0, signalAt := none, signalCtx := default })
      2000 0 (by decide) rfl (fun i => ⟨rfl, rfl, rfl, rfl⟩)).1,
   (timeoutRetryStrategy_spec { (default : OpenIdConfiguration) with configId := "cT" }
      JsError.timeoutError 0).2.2.2.2 JsError.timeoutError 0⟩

/-- C2 counterexample: a concrete iframe renewal whose first attempt times
out (signal never arrives) surfaces an error — the `TypeError` from the
mis-wired retry strategy — while the silent-renew-in-progress flag set
during that attempt is still set: the threaded flag state and a replay of
the effect trace both end `true`, and the trace contains neither a flag
reset nor a backoff delay.  This contradicts the claim that the flag is
cleared before a definitively surfaced error reaches the caller. -/
theorem forceRefreshSession_flag_counterexample :
    (forceRefreshSessionAsWired
        { (default : OpenIdConfiguration) with
            configId := "cX", authWellknownEndpointUrl := "https://wkX",
            silentRenewTimeoutInSeconds := 1 }
        []
        { authEnv := default
          start0 := { metadataError := none, dispatchError := none }
          attempts := fun _ =>
            { start := { metadataError := none, dispatchError := none }
              startDoneAt := some 0, signalAt := none, signalCtx := default } }
        false).1 =
      RefreshOutcome.error (JsError.message
        "TypeError: Cannot destructure property configId of undefined") ∧
    (forceRefreshSessionAsWired
        { (default : OpenIdConfiguration) with
            configId := "cX", authWellknownEndpointUrl := "https://wkX",
            silentRenewTimeoutInSeconds := 1 }
        []
        { authEnv := default
          start0 := { metadataError := none, dispatchError := none }
          attempts := fun _ =>
            { start := { metadataError := none, dispatchError := none }
              startDoneAt := some 0, signalAt := none, signalCtx := default } }
        false).2.2 = true ∧
    flagAfter "cX" false
      (forceRefreshSessionAsWired
        { (default : OpenIdConfiguration) with
            configId := "cX", authWellknownEndpointUrl := "https://wkX",
            silentRenewTimeoutInSeconds := 1 }
        []
        { authEnv := default
          start0 := { metadataError := none, dispatchError := none }
          attempts := fun _ =>
            { start := { metadataError := none, dispatchError := none }
              startDoneAt := some 0, signalAt := none, signalCtx := default } }
        false).2.1 = true ∧
    delaysIn
      (forceRefreshSessionAsWired
        { (default : OpenIdConfiguration) with
            configId := "cX", authWellknownEndpointUrl := "https://wkX",
            silentRenewTimeoutInSeconds := 1 }
        []
        { authEnv := default
          start0 := { metadataError := none, dispatchError := none }
          attempts := fun _ =>
            { start := { metadataError := none, dispatchError := none }
              startDoneAt := some 0, signalAt := none, signalCtx := default } }
        false).2.1 = [] ∧
    Effect.resetSilentRenewRunning "cX" ∉
      (forceRefreshSessionAsWired
        { (default : OpenIdConfiguration) with
            configId := "cX", authWellknownEndpointUrl := "https://wkX",
            silentRenewTimeoutInSeconds := 1 }
        []
        { authEnv := default
          start0 := { metadataError := none, dispatchError := none }
          attempts := fun _ =>
            { start := { metadataError := none, dispatchError := none }
              startDoneAt := some 0, signalAt := none, signalCtx := default } }
        false).2.1 :=
  ⟨rfl, rfl, rfl, rfl, by decide⟩

/-- C2 (amended): a renewal attempt on the iframe path that ends with a
surfaced error does NOT have the in-progress flag cleared first.  The first
pipeline error — the timeout when the completion signal never arrives, or a
collaborator error after the flag was set — is replaced by the `TypeError`
thrown by the retry strategy invoked without its `config` argument, and it
reaches the caller with the flag still set; no retry, no flag reset and no
backoff delay ever occur on this path. -/
theorem forceRefreshSession_flag_spec (config : OpenIdConfiguration) (extra : Params)
    (env : RefreshSessionEnv)
    (hflow : config.isCodeFlowWithRefreshTokens = false)
    (hurl : config.authWellknownEndpointUrl ≠ "")
    (hme : (env.attempts 0).start.metadataError = none)
    (hdone : (env.attempts 0).startDoneAt = some 0)
    (hsig : (env.attempts 0).signalAt = none) :
    ((env.attempts 0).start.dispatchError = none →
      (forceRefreshSessionAsWired config extra env false).1 =
        RefreshOutcome.error (JsError.message
          "TypeError: Cannot destructure property configId of undefined") ∧
      (forceRefreshSessionAsWired config extra env false).2.2 = true ∧
      delaysIn (forceRefreshSessionAsWired config extra env false).2.1 = [] ∧
      Effect.resetSilentRenewRunning config.configId ∉
        (forceRefreshSessionAsWired config extra env false).2.1) ∧
    (∀ e, (env.attempts 0).start.dispatchError = some e →
      (forceRefreshSessionAsWired config extra env false).1 =
        RefreshOutcome.error (JsError.message
          "TypeError: Cannot destructure property configId of undefined") ∧
      (forceRefreshSessionAsWired config extra env false).2.2 = true ∧
      Effect.resetSilentRenewRunning config.configId ∉
        (forceRefreshSessionAsWired config extra env false).2.1) := by
  constructor
  · intro hde
    have a0 := runIframeAttempt_timeoutCase config extra (env.attempts 0)
      (config.silentRenewTimeoutInSeconds * 1000) hurl hflow hme hde hdone hsig
    refine ⟨?_, ?_, ?_, ?_⟩ <;>
      simp [forceRefreshSessionAsWired, hflow, a0, wiredFirstErrorOutcome,
        timeoutRetryStrategyAsWired, delaysIn]
  · intro e hde
    refine ⟨?_, ?_, ?_⟩ <;>
      simp [forceRefreshSessionAsWired, hflow, runIframeAttempt, startRefreshSession,
        hurl, hme, hde, wiredFirstErrorOutcome, timeoutRetryStrategyAsWired]

/-- Closed witness for `forceRefreshSession_flag_spec`: the first-timeout
scenario and a dispatch-error scenario, both surfacing the `TypeError` with
the flag left set. -/
theorem forceRefreshSession_flag_spec_witness :
    ((forceRefreshSessionAsWired
        { (default : OpenIdConfiguration) with
            configId := "cY", authWellknownEndpointUrl := "https://wkY" }
        []
        { authEnv := default
          start0 := { metadataError := none, dispatchError := none }
          attempts := fun _ =>
            { start := { metadataError := none, dispatchError := none }
              startDoneAt := some 0, signalAt := none, signalCtx := default } }
        false).1 =
      RefreshOutcome.error (JsError.message
        "TypeError: Cannot destructure property configId of undefined") ∧
    (forceRefreshSessionAsWired
        { (default : OpenIdConfiguration) with
            configId := "cY", authWellknownEndpointUrl := "https://wkY" }
        []
        { authEnv := default
          start0 := { metadataError := none, dispatchError := none }
          attempts := fun _ =>
            { start := { metadataError := none, dispatchError := none }
              startDoneAt := some 0, signalAt := none, signalCtx := default } }
        false).2.2 = true ∧
    delaysIn
      (forceRefreshSessionAsWired
        { (default : OpenIdConfiguration) with
            configId := "cY", authWellknownEndpointUrl := "https://wkY" }
        []
        { authEnv := default
          start0 := { metadataError := none, dispatchError := none }
          attempts := fun _ =>
            { start := { metadataError := none, dispatchError := none }
              startDoneAt := some 0, signalAt := none, signalCtx := default } }
        false).2.1 = [] ∧
    Effect.resetSilentRenewRunning "cY" ∉
      (forceRefreshSessionAsWired
        { (default : OpenIdConfiguration) with
            configId := "cY", authWellknownEndpointUrl := "https://wkY" }
        []
        { authEnv := default
          start0 := { metadataError := none, dispatchError := none }
          attempts := fun _ =>
            { start := { metadataError := none, dispatchError := none }
              startDoneAt := some 0, signalAt := none, signalCtx := default } }
        false).2.1) ∧
    ((forceRefreshSessionAsWired
        { (default : OpenIdConfiguration) with
            configId := "cZ", authWellknownEndpointUrl := "https://wkZ" }
        []
        { authEnv := default
          start0 := { metadataError := none, dispatchError := none }
          attempts := fun _ =>
            { start := { metadataError := none,
                         dispatchError := some (JsError.message "dispatch failed") }
              startDoneAt := some 0, signalAt := none, signalCtx := default } }
        false).1 =
      RefreshOutcome.error (JsError.message
        "TypeError: Cannot destructure property configId of undefined") ∧
    (forceRefreshSessionAsWired
        { (default : OpenIdConfiguration) with
            configId := "cZ", authWellknownEndpointUrl := "https://wkZ" }
        []
        { authEnv := default
          start0 := { metadataError := none, dispatchError := none }
          attempts := fun _ =>
            { start := { metadataError := none,
                         dispatchError := some (JsError.message "dispatch failed") }
              startDoneAt := some 0, signalAt := none, signalCtx := default } }
        false).2.2 = true ∧
    Effect.resetSilentRenewRunning "cZ" ∉
      (forceRefreshSessionAsWired
        { (default : OpenIdConfiguration) with
            configId := "cZ", authWellknownEndpointUrl := "https://wkZ" }
        []
        { authEnv := default
          start0 := { metadataError := none, dispatchError := none }
          attempts := fun _ =>
            { start := { metadataError := none,
                         dispatchError := some (JsError.message "dispatch failed") }
              startDoneAt := some 0, signalAt := none, signalCtx := default } }
        false).2.1) :=
  ⟨(forceRefreshSession_flag_spec
      { (default : OpenIdConfiguration) with
          configId := "cY", authWellknownEndpointUrl := "https://wkY" }
      []
      { authEnv := default
        start0 := { metadataError := none, dispatchError := none }
        attempts := fun _ =>
          { start := { metadataError := none, dispatchError := none }
            startDoneAt := some 0, signalAt := none, signalCtx := default } }
      rfl (by decide) rfl rfl rfl).1 rfl,
   (forceRefreshSession_flag_spec
      { (default : OpenIdConfiguration) with
          configId := "cZ", authWellknownEndpointUrl := "https://wkZ" }
      []
      { authEnv := default
        start0 := { metadataError := none, dispatchError := none }
        attempts := fun _ =>
          { start := { metadataError := none,
                       dispatchError := some (JsError.message "dispatch failed") }
            startDoneAt := some 0, signalAt := none, signalCtx := default } }
      rfl (by decide) rfl rfl rfl).2
      (JsError.message "dispatch failed") rfl⟩
